import Mathlib

/-!
Verification of the RAMP message/result-code layer (repository `jtmnf/sdrm`).

Shallow embedding of the Python sources:
- `src/ramp_messages/__init__.py` (`RampMessage` base: `lc_id`, `timestamp`, `to_json`)
- `src/ramp_messages/fhm.py`, `hm.py`, `dcm.py`, `um.py` (concrete variants)
- `src/ramp_results/categories.py` (`ResultCategory` enum)
- `src/ramp_results/codes.py` (`VERSION`, `is_compatible`, `ResultCode`, catalog constants)
- `src/ramp_results/acknowledgment.py` (`Acknowledgment`)

Modelling conventions: Python strings are Lean `String`; Python `dict`s are
association lists (Python dicts preserve insertion order, which the spec makes
part of the wire contract); JSON-serializable values are the inductive `JVal`;
the wall clock read by `int(time.time() * 1000)` at construction time is passed
to each constructor as an explicit `now : Nat` argument; `int | None` optional
parameters are `Option`; fallible operations return `Except`.
-/

/-- JSON-serializable values, the codomain of every `payload()` in the layer:
strings, integers, arrays and (insertion-ordered) objects. -/
inductive JVal where
  | str : String → JVal
  | int : Int → JVal
  | arr : List JVal → JVal
  | obj : List (String × JVal) → JVal
deriving Repr

/-- Escaping of one character inside a JSON string literal, as `json.dumps`
performs it for the quote and backslash characters (the only escapes the
payloads of this layer can need: keys and values here carry no control
characters). -/
def json_escape_char (c : Char) : List Char :=
  if c = '"' then ['\\', '"']
  else if c = '\\' then ['\\', '\\']
  else [c]

/-- Escape a string for inclusion in JSON output. -/
def json_escape (s : String) : String :=
  String.mk (s.data.map json_escape_char).flatten

mutual
/-- Compact JSON serialization, as `json.dumps(..., separators=(",", ":"))`
in `RampMessage.to_json`: no whitespace, keys in insertion order. -/
def json_dumps : JVal → String
  | .str s => "\"" ++ json_escape s ++ "\""
  | .int i => toString i
  | .arr xs => "[" ++ json_dumps_list xs ++ "]"
  | .obj kvs => "\x7b" ++ json_dumps_obj kvs ++ "\x7d"

/-- Comma-separated serialization of a JSON array's elements. -/
def json_dumps_list : List JVal → String
  | [] => ""
  | [x] => json_dumps x
  | x :: y :: xs => json_dumps x ++ "," ++ json_dumps_list (y :: xs)

/-- Comma-separated serialization of a JSON object's key/value pairs. -/
def json_dumps_obj : List (String × JVal) → String
  | [] => ""
  | [(k, v)] => "\"" ++ json_escape k ++ "\":" ++ json_dumps v
  | (k, v) :: w :: kvs =>
      "\"" ++ json_escape k ++ "\":" ++ json_dumps v ++ "," ++ json_dumps_obj (w :: kvs)
end

/-- The keys of a JSON object, in order; `[]` on non-objects. -/
def JVal.objKeys : JVal → List String
  | .obj kvs => kvs.map Prod.fst
  | _ => []

/-- Look a key up in a JSON object (first occurrence); `none` on non-objects. -/
def JVal.objLookup : JVal → String → Option JVal
  | .obj kvs, k => (kvs.find? (fun kv => kv.fst == k)).map Prod.snd
  | _, _ => none

/-! ## `ramp_results/categories.py` -/

/-- The `ResultCategory` enum: five coarse outcome classes. -/
inductive ResultCategory where
  | SUCCESS
  | CLIENT_ERROR
  | SERVER_ERROR
  | ACTION_REQUIRED
  | CUSTOM
deriving DecidableEq, Repr

/-- The numeric value assigned to each enum member in `categories.py`
(`SUCCESS = 1`, ..., `CUSTOM = 5`). -/
def ResultCategory.value : ResultCategory → Nat
  | .SUCCESS => 1
  | .CLIENT_ERROR => 2
  | .SERVER_ERROR => 3
  | .ACTION_REQUIRED => 4
  | .CUSTOM => 5

/-! ## `ramp_results/codes.py` -/

/-- Current schema version for RAMP result codes (`VERSION = "1.0.0"`). -/
def VERSION : String := "1.0.0"

/-- Python `s.split(".")` on a list of characters: split at every occurrence
of the dot, keeping empty components (so `"".split(".") == [""]` and
`"a..b".split(".") == ["a", "", "b"]`). -/
def pySplitDot : List Char → List (List Char)
  | [] => [[]]
  | c :: rest =>
    match pySplitDot rest with
    | [] => [[]]
    | s :: ss => if c = '.' then [] :: s :: ss else (c :: s) :: ss

/-- Python `s.split(".")` on a `String`. -/
def py_split_dot (s : String) : List String :=
  (pySplitDot s.data).map (fun cs => String.mk cs)

/-- `is_compatible` from `codes.py`: split both the local `VERSION` and the
remote version on `"."`; the single pattern match below is the fusion of the
source's `len(...) != 3` arity checks with its subsequent indexing of
components 0 and 1; component 2 is never inspected. String inputs can raise
neither `AttributeError` nor `ValueError` in the source, so the `try/except`
is dead for the `str`-typed argument and the function is total. -/
def is_compatible (remote_version : String) : Bool :=
  match py_split_dot VERSION, py_split_dot remote_version with
  | [l0, l1, _l2], [r0, r1, _r2] =>
    if l0 ≠ r0 then false
    else if l1 ≠ r1 then false
    else true
  | _, _ => false

/-- `ResultCode` dataclass (frozen): `code`, `category`, `description`. -/
structure ResultCode where
  code : String
  category : ResultCategory
  description : String
deriving DecidableEq, Repr

def GENERIC_SUCCESS : ResultCode := ⟨"1.00.00", ResultCategory.SUCCESS, "Operation completed successfully."⟩

def ACKNOWLEDGED : ResultCode := ⟨"1.00.01", ResultCategory.SUCCESS, "Message acknowledged; no further action needed."⟩

def ACCEPTED : ResultCode := ⟨"1.00.02", ResultCategory.SUCCESS, "Instruction accepted for processing."⟩

def CONNECTED : ResultCode := ⟨"1.01.00", ResultCategory.SUCCESS, "Connection established successfully."⟩

def RECONNECTED : ResultCode := ⟨"1.01.01", ResultCategory.SUCCESS, "Reconnection succeeded after temporary loss."⟩

def DATA_STORED : ResultCode := ⟨"1.03.00", ResultCategory.SUCCESS, "Sensor data written to database."⟩

def DATA_UPDATED : ResultCode := ⟨"1.03.01", ResultCategory.SUCCESS, "Existing record modified with new data."⟩

def BATCH_STORED : ResultCode := ⟨"1.03.02", ResultCategory.SUCCESS, "Multiple data entries processed successfully."⟩

def CONFIG_APPLIED : ResultCode := ⟨"1.04.00", ResultCategory.SUCCESS, "New configuration applied without errors."⟩

def CONFIG_VALIDATED : ResultCode := ⟨"1.04.01", ResultCategory.SUCCESS, "Configuration validated; awaiting confirmation."⟩

def UPDATE_COMPLETE : ResultCode := ⟨"1.05.00", ResultCategory.SUCCESS, "Update operation finished successfully."⟩

def PATCH_APPLIED : ResultCode := ⟨"1.05.01", ResultCategory.SUCCESS, "System patch executed and logged."⟩

def HEARTBEAT_OK : ResultCode := ⟨"1.06.00", ResultCategory.SUCCESS, "Heartbeat received and accepted."⟩

def HEARTBEAT_SYNCED : ResultCode := ⟨"1.06.01", ResultCategory.SUCCESS, "Heartbeat interval synchronized successfully."⟩

def SELFCHECK_PASSED : ResultCode := ⟨"1.07.00", ResultCategory.SUCCESS, "System health check completed successfully."⟩

def MONITORING_OK : ResultCode := ⟨"1.07.01", ResultCategory.SUCCESS, "Monitoring components verified operational."⟩

def RECOVERY_OK : ResultCode := ⟨"1.07.02", ResultCategory.SUCCESS, "System resumed normal state after recovery."⟩

def FIRMWARE_VALIDATED : ResultCode := ⟨"1.08.00", ResultCategory.SUCCESS, "Firmware version validated against baseline."⟩

def FIRMWARE_APPLIED : ResultCode := ⟨"1.08.01", ResultCategory.SUCCESS, "Firmware image applied and checksum verified."⟩

def FIRMWARE_COMMITTED : ResultCode := ⟨"1.08.02", ResultCategory.SUCCESS, "Firmware version confirmed as active."⟩

def RULES_LOADED : ResultCode := ⟨"1.09.00", ResultCategory.SUCCESS, "Decision ruleset loaded successfully."⟩

def RULES_VALIDATED : ResultCode := ⟨"1.09.01", ResultCategory.SUCCESS, "Ruleset passed syntax and scope validation."⟩

def RULES_ENFORCED : ResultCode := ⟨"1.09.02", ResultCategory.SUCCESS, "Runtime logic enforced current rule set."⟩

def MALFORMED_MESSAGE : ResultCode := ⟨"2.01.00", ResultCategory.CLIENT_ERROR, "Message structure invalid or incomplete."⟩

def UNKNOWN_TYPE : ResultCode := ⟨"2.01.01", ResultCategory.CLIENT_ERROR, "Message type not recognized."⟩

def MISSING_FIELDS : ResultCode := ⟨"2.01.02", ResultCategory.CLIENT_ERROR, "Required field(s) missing from payload."⟩

def INVALID_PAYLOAD : ResultCode := ⟨"2.01.03", ResultCategory.CLIENT_ERROR, "One or more payload fields are incorrect."⟩

def FIELD_TYPE_ERROR : ResultCode := ⟨"2.01.04", ResultCategory.CLIENT_ERROR, "Type mismatch in a required field."⟩

def UNEXPECTED_STRUCTURE : ResultCode := ⟨"2.01.05", ResultCategory.CLIENT_ERROR, "Nested field layout does not match schema."⟩

def UNAUTHORIZED : ResultCode := ⟨"2.02.00", ResultCategory.CLIENT_ERROR, "Token or identity check failed."⟩

def TOKEN_EXPIRED : ResultCode := ⟨"2.02.01", ResultCategory.CLIENT_ERROR, "Provided token is no longer valid."⟩

def ROLE_FORBIDDEN : ResultCode := ⟨"2.02.02", ResultCategory.CLIENT_ERROR, "Operation not permitted for this LC."⟩

def CONNECTION_REFUSED : ResultCode := ⟨"2.03.00", ResultCategory.CLIENT_ERROR, "MC rejected handshake or payload."⟩

def DUPLICATE_CONNECT : ResultCode := ⟨"2.03.01", ResultCategory.CLIENT_ERROR, "LC attempted to connect multiple times."⟩

def UPDATE_REJECTED : ResultCode := ⟨"2.04.00", ResultCategory.CLIENT_ERROR, "Configuration update disallowed."⟩

def FORMAT_DEPRECATED : ResultCode := ⟨"2.04.01", ResultCategory.CLIENT_ERROR, "Message format is deprecated or unsupported."⟩

def BAD_HEARTBEAT : ResultCode := ⟨"2.05.00", ResultCategory.CLIENT_ERROR, "Heartbeat frequency or content invalid."⟩

def OUT_OF_SYNC : ResultCode := ⟨"2.05.01", ResultCategory.CLIENT_ERROR, "Timestamps or sequence numbers inconsistent."⟩

def CONFIG_CONFLICT : ResultCode := ⟨"2.06.00", ResultCategory.CLIENT_ERROR, "Two conflicting parameters detected."⟩

def REJECTED_POLICY : ResultCode := ⟨"2.06.01", ResultCategory.CLIENT_ERROR, "Submitted change violates controller policy."⟩

def INVALID_TIMESTAMP : ResultCode := ⟨"2.06.02", ResultCategory.CLIENT_ERROR, "Message timestamp is out of logical bounds."⟩

def SEQUENCE_MISMATCH : ResultCode := ⟨"2.06.03", ResultCategory.CLIENT_ERROR, "Sequence counter does not align with prior state."⟩

def PATCH_MALFORMED : ResultCode := ⟨"2.07.00", ResultCategory.CLIENT_ERROR, "Update patch could not be parsed."⟩

def PATCH_CONFLICT : ResultCode := ⟨"2.07.01", ResultCategory.CLIENT_ERROR, "Patch conflicts with existing instructions."⟩

def UPDATE_UNSAFE : ResultCode := ⟨"2.07.02", ResultCategory.CLIENT_ERROR, "Patch would compromise runtime safety."⟩

def MISSING_DEPENDENCY : ResultCode := ⟨"2.08.00", ResultCategory.CLIENT_ERROR, "Operation references undeclared dependency."⟩

def ILLEGAL_OVERRIDE : ResultCode := ⟨"2.08.01", ResultCategory.CLIENT_ERROR, "Attempt to override protected configuration."⟩

def INTERNAL_EXCEPTION : ResultCode := ⟨"3.10.00", ResultCategory.SERVER_ERROR, "Uncaught exception in message processing."⟩

def DB_WRITE_ERROR : ResultCode := ⟨"3.10.01", ResultCategory.SERVER_ERROR, "Database could not commit the data."⟩

def TRANSACTION_TIMEOUT : ResultCode := ⟨"3.10.02", ResultCategory.SERVER_ERROR, "Data commit operation exceeded timeout."⟩

def LOCK_CONFLICT : ResultCode := ⟨"3.10.03", ResultCategory.SERVER_ERROR, "Concurrency control failure."⟩

def QUEUE_FULL : ResultCode := ⟨"3.11.00", ResultCategory.SERVER_ERROR, "Internal message queue is full."⟩

def DISPATCHER_FAILURE : ResultCode := ⟨"3.11.01", ResultCategory.SERVER_ERROR, "Routing logic failed to assign handler."⟩

def RETRY_EXHAUSTED : ResultCode := ⟨"3.11.02", ResultCategory.SERVER_ERROR, "System retried operation and failed."⟩

def DOWNSTREAM_DOWN : ResultCode := ⟨"3.12.00", ResultCategory.SERVER_ERROR, "Downstream service unavailable."⟩

def STORAGE_OFFLINE : ResultCode := ⟨"3.12.01", ResultCategory.SERVER_ERROR, "Data layer cannot be accessed."⟩

def ANALYTICS_FAILED : ResultCode := ⟨"3.12.02", ResultCategory.SERVER_ERROR, "MC analytics module failed to respond."⟩

def EMERGENCY_STOP : ResultCode := ⟨"3.13.00", ResultCategory.SERVER_ERROR, "Critical fault triggered shutdown."⟩

def MODULE_CRASH : ResultCode := ⟨"3.14.00", ResultCategory.SERVER_ERROR, "Internal service module encountered a fatal error."⟩

def RESOURCE_STARVATION : ResultCode := ⟨"3.14.01", ResultCategory.SERVER_ERROR, "System unable to allocate memory or threads."⟩

def INCONSISTENT_STATE : ResultCode := ⟨"3.14.02", ResultCategory.SERVER_ERROR, "Controller entered invalid runtime state."⟩

def WATCHDOG_TRIGGERED : ResultCode := ⟨"3.14.03", ResultCategory.SERVER_ERROR, "System watchdog forced fault recovery."⟩

def OVERFLOW_FAULT : ResultCode := ⟨"3.15.00", ResultCategory.SERVER_ERROR, "Numerical overflow or out-of-range computation."⟩

def DIVISION_ERROR : ResultCode := ⟨"3.15.01", ResultCategory.SERVER_ERROR, "Division by zero or undefined result."⟩

def RANGE_VIOLATION : ResultCode := ⟨"3.15.02", ResultCategory.SERVER_ERROR, "Access attempted beyond defined limits."⟩

def SANDBOX_BREACH : ResultCode := ⟨"3.16.00", ResultCategory.SERVER_ERROR, "Isolated process violated runtime boundaries."⟩

def MESSAGE_LEAK : ResultCode := ⟨"3.16.01", ResultCategory.SERVER_ERROR, "Data from restricted scope exposed."⟩

def RECONFIGURATION_REQUIRED : ResultCode := ⟨"4.20.00", ResultCategory.ACTION_REQUIRED, "Operation cannot proceed without setting changes."⟩

def RETRY_SUGGESTED : ResultCode := ⟨"4.20.01", ResultCategory.ACTION_REQUIRED, "Temporary issue; retry may succeed."⟩

def INVALID_SCHEMA : ResultCode := ⟨"4.20.02", ResultCategory.ACTION_REQUIRED, "Controller must update message schema."⟩

def SELF_TEST_NEEDED : ResultCode := ⟨"4.21.00", ResultCategory.ACTION_REQUIRED, "Self-check must be initiated by LC."⟩

def CALIBRATION_NEEDED : ResultCode := ⟨"4.21.01", ResultCategory.ACTION_REQUIRED, "Sensor needs calibration input."⟩

def RESET_REQUIRED : ResultCode := ⟨"4.21.02", ResultCategory.ACTION_REQUIRED, "System requires reboot or state clear."⟩

def MANUAL_INTERVENTION : ResultCode := ⟨"4.22.00", ResultCategory.ACTION_REQUIRED, "Action cannot proceed without human review."⟩

def UNSAFE_CONDITION : ResultCode := ⟨"4.22.01", ResultCategory.ACTION_REQUIRED, "Safety check failed; operation paused."⟩

def DEPLOYMENT_CHANGE : ResultCode := ⟨"4.22.02", ResultCategory.ACTION_REQUIRED, "Deployment configuration must be updated."⟩

def RESERVED_MODE : ResultCode := ⟨"4.22.03", ResultCategory.ACTION_REQUIRED, "LC in restricted/maintenance mode."⟩

def MANUAL_REBOOT : ResultCode := ⟨"4.23.00", ResultCategory.ACTION_REQUIRED, "Operator must restart the system physically."⟩

def REPLACE_COMPONENT : ResultCode := ⟨"4.23.01", ResultCategory.ACTION_REQUIRED, "Physical sensor or module replacement needed."⟩

def CONFIRM_OVERRIDE : ResultCode := ⟨"4.23.02", ResultCategory.ACTION_REQUIRED, "Policy override must be manually accepted."⟩

def AWAIT_SCHEDULING : ResultCode := ⟨"4.24.00", ResultCategory.ACTION_REQUIRED, "LC placed in pending state by MC."⟩

def CERTIFICATE_UPDATE : ResultCode := ⟨"4.24.01", ResultCategory.ACTION_REQUIRED, "Security certificate is outdated."⟩

def ROLE_CHANGE_PENDING : ResultCode := ⟨"4.24.02", ResultCategory.ACTION_REQUIRED, "LC role update awaiting activation."⟩

def CONFLICT_ESCALATION : ResultCode := ⟨"4.25.00", ResultCategory.ACTION_REQUIRED, "Operational conflict requires MC arbitration."⟩

def LOG_REVIEW_REQUIRED : ResultCode := ⟨"4.25.01", ResultCategory.ACTION_REQUIRED, "Event logs must be reviewed before continuation."⟩

def ENTER_DEGRADED_MODE : ResultCode := ⟨"4.25.02", ResultCategory.ACTION_REQUIRED, "LC must reduce capability until resolved."⟩

def GRACE_PERIOD_EXPIRED : ResultCode := ⟨"4.25.03", ResultCategory.ACTION_REQUIRED, "Required update window has elapsed."⟩

def CUSTOM_HANDLER : ResultCode := ⟨"5.99.00", ResultCategory.CUSTOM, "Message processed by custom integration logic."⟩

/-- The catalog: every `ResultCode` constant defined in `codes.py`, in the
source file's definition order. -/
def ALL_CODES : List ResultCode := [
  GENERIC_SUCCESS, ACKNOWLEDGED, ACCEPTED, CONNECTED, RECONNECTED, DATA_STORED, DATA_UPDATED, BATCH_STORED, CONFIG_APPLIED, CONFIG_VALIDATED, UPDATE_COMPLETE, PATCH_APPLIED, HEARTBEAT_OK, HEARTBEAT_SYNCED, SELFCHECK_PASSED, MONITORING_OK, RECOVERY_OK, FIRMWARE_VALIDATED, FIRMWARE_APPLIED, FIRMWARE_COMMITTED, RULES_LOADED, RULES_VALIDATED, RULES_ENFORCED, MALFORMED_MESSAGE, UNKNOWN_TYPE, MISSING_FIELDS, INVALID_PAYLOAD, FIELD_TYPE_ERROR, UNEXPECTED_STRUCTURE, UNAUTHORIZED, TOKEN_EXPIRED, ROLE_FORBIDDEN, CONNECTION_REFUSED, DUPLICATE_CONNECT, UPDATE_REJECTED, FORMAT_DEPRECATED, BAD_HEARTBEAT, OUT_OF_SYNC, CONFIG_CONFLICT, REJECTED_POLICY, INVALID_TIMESTAMP, SEQUENCE_MISMATCH, PATCH_MALFORMED, PATCH_CONFLICT, UPDATE_UNSAFE, MISSING_DEPENDENCY, ILLEGAL_OVERRIDE, INTERNAL_EXCEPTION, DB_WRITE_ERROR, TRANSACTION_TIMEOUT, LOCK_CONFLICT, QUEUE_FULL, DISPATCHER_FAILURE, RETRY_EXHAUSTED, DOWNSTREAM_DOWN, STORAGE_OFFLINE, ANALYTICS_FAILED, EMERGENCY_STOP, MODULE_CRASH, RESOURCE_STARVATION, INCONSISTENT_STATE, WATCHDOG_TRIGGERED, OVERFLOW_FAULT, DIVISION_ERROR, RANGE_VIOLATION, SANDBOX_BREACH, MESSAGE_LEAK, RECONFIGURATION_REQUIRED, RETRY_SUGGESTED, INVALID_SCHEMA, SELF_TEST_NEEDED, CALIBRATION_NEEDED, RESET_REQUIRED, MANUAL_INTERVENTION, UNSAFE_CONDITION, DEPLOYMENT_CHANGE, RESERVED_MODE, MANUAL_REBOOT, REPLACE_COMPONENT, CONFIRM_OVERRIDE, AWAIT_SCHEDULING, CERTIFICATE_UPDATE, ROLE_CHANGE_PENDING, CONFLICT_ESCALATION, LOG_REVIEW_REQUIRED, ENTER_DEGRADED_MODE, GRACE_PERIOD_EXPIRED, CUSTOM_HANDLER]

/-- Checker for the code-string format `^[1-5]\.\d\x7b2\x7d\.\d\x7b2\x7d$`:
one category digit in 1..5, a dot, two digits, a dot, two digits. -/
def code_well_formed (s : String) : Bool :=
  match s.data with
  | [c, '.', a, b, '.', d, e] =>
      ('1' ≤ c && c ≤ '5') && a.isDigit && b.isDigit && d.isDigit && e.isDigit
  | _ => false

/-- The numeric value of the leading (category) digit of a code string. -/
def leading_ordinal (s : String) : Option Nat :=
  s.data.head?.map (fun c => c.toNat - '0'.toNat)

/-- Failure of a code-string lookup in the catalog. -/
inductive CodeLookupError where
  | UnknownCode : String → CodeLookupError
deriving DecidableEq, Repr

/-- Modelled from the spec: the codes module under `src/` defines only the
named constants; the flat `code → ResultCode` lookup collection the spec
requires ("addressable ... as a flat collection for lookup by code string",
"a code string not present in the catalog ... surfaced to the caller as
unknown code, never silently defaulted") is not present in `src/`. The lookup
searches the catalog constants by `code` and surfaces an absent code string as
an `UnknownCode` error. -/
def lookup_code (c : String) : Except CodeLookupError ResultCode :=
  match ALL_CODES.find? (fun rc => rc.code == c) with
  | some rc => .ok rc
  | none => .error (.UnknownCode c)

/-! ## `ramp_messages` package -/

/-- Failure kind of a variant construction with a required field missing.
At a Python call site a missing required positional argument raises
`TypeError` before `__init__` runs; the spec names this construction-time
contract violation kind `InvalidMessage` (the name itself appears nowhere
under `src/`). -/
inductive ConstructionError where
  | InvalidMessage : ConstructionError
deriving DecidableEq, Repr

/-- `FirstHandshakeMessage` (fhm.py): `lc_id` and `timestamp` from the
`RampMessage` base plus `name`, `ip`, optional `train_id`, and `sensors`
(normalized to `[]` when absent). Sensor descriptors are JSON objects. -/
structure FirstHandshakeMessage where
  lc_id : String
  timestamp : Nat
  name : String
  ip : String
  train_id : Option Int
  sensors : List JVal

/-- `FirstHandshakeMessage.__init__`: the base class stores `lc_id` and
captures `timestamp` (passed here as `now`); `train_id` is stored as given,
and `sensors` is normalized by `sensors or []` — `None` becomes the empty
list (and an empty list stays empty, so `Option.getD` coincides). -/
def FirstHandshakeMessage.construct (now : Nat) (lc_id name ip : String)
    (train_id : Option Int) (sensors : Option (List JVal)) :
    FirstHandshakeMessage :=
  ⟨lc_id, now, name, ip, train_id, sensors.getD []⟩

/-- `FirstHandshakeMessage.msg_type`. -/
def FirstHandshakeMessage.msg_type (_m : FirstHandshakeMessage) : String := "FHM"

/-- `FirstHandshakeMessage.topic`. -/
def FirstHandshakeMessage.topic (m : FirstHandshakeMessage) : String :=
  "/mc/" ++ m.lc_id ++ "/new_connection/request"

/-- `FirstHandshakeMessage.payload`: starts from `id`/`name`/`ip`, appends
`train_id` when it `is not None`, then `sensors` when the list is truthy
(non-empty). -/
def FirstHandshakeMessage.payload (m : FirstHandshakeMessage) : JVal :=
  JVal.obj (
    [("id", JVal.str m.lc_id), ("name", JVal.str m.name), ("ip", JVal.str m.ip)]
    ++ (match m.train_id with
        | some t => [("train_id", JVal.int t)]
        | none => [])
    ++ (if m.sensors.isEmpty then [] else [("sensors", JVal.arr m.sensors)]))

/-- `RampMessage.to_json` for FHM. -/
def FirstHandshakeMessage.to_json (m : FirstHandshakeMessage) : String :=
  json_dumps m.payload

/-- The Python call protocol for `FirstHandshakeMessage(...)`: each required
parameter (`lc_id`, `name`, `ip`) either bound or missing; a missing one
fails the construction with the `InvalidMessage` kind, otherwise `__init__`
runs. -/
def FirstHandshakeMessage.tryConstruct (now : Nat)
    (lc_id name ip : Option String) (train_id : Option Int)
    (sensors : Option (List JVal)) :
    Except ConstructionError FirstHandshakeMessage :=
  match lc_id, name, ip with
  | some l, some n, some i =>
      .ok (FirstHandshakeMessage.construct now l n i train_id sensors)
  | _, _, _ => .error .InvalidMessage

/-- `HeartbeatMessage` (hm.py). -/
structure HeartbeatMessage where
  lc_id : String
  timestamp : Nat
  heartrate : Int

/-- `HeartbeatMessage.__init__`. -/
def HeartbeatMessage.construct (now : Nat) (lc_id : String) (heartrate : Int) :
    HeartbeatMessage :=
  ⟨lc_id, now, heartrate⟩

/-- `HeartbeatMessage.msg_type`. -/
def HeartbeatMessage.msg_type (_m : HeartbeatMessage) : String := "HM"

/-- `HeartbeatMessage.topic`. -/
def HeartbeatMessage.topic (m : HeartbeatMessage) : String :=
  "/lc/" ++ m.lc_id ++ "/heartbeat/"

/-- `HeartbeatMessage.payload`. -/
def HeartbeatMessage.payload (m : HeartbeatMessage) : JVal :=
  JVal.obj [("heartbeat", JVal.int 1), ("heartrate", JVal.int m.heartrate)]

/-- `RampMessage.to_json` for HM. -/
def HeartbeatMessage.to_json (m : HeartbeatMessage) : String :=
  json_dumps m.payload

/-- The Python call protocol for `HeartbeatMessage(...)`. -/
def HeartbeatMessage.tryConstruct (now : Nat) (lc_id : Option String)
    (heartrate : Option Int) : Except ConstructionError HeartbeatMessage :=
  match lc_id, heartrate with
  | some l, some h => .ok (HeartbeatMessage.construct now l h)
  | _, _ => .error .InvalidMessage

/-- `DisconnectMessage` (dcm.py): no fields of its own beyond the base. -/
structure DisconnectMessage where
  lc_id : String
  timestamp : Nat

/-- `RampMessage.__init__` as inherited by DCM. -/
def DisconnectMessage.construct (now : Nat) (lc_id : String) :
    DisconnectMessage :=
  ⟨lc_id, now⟩

/-- `DisconnectMessage.msg_type`. -/
def DisconnectMessage.msg_type (_m : DisconnectMessage) : String := "DCM"

/-- `DisconnectMessage.topic`. -/
def DisconnectMessage.topic (m : DisconnectMessage) : String :=
  "/lc/" ++ m.lc_id ++ "/disconnect/"

/-- `DisconnectMessage.payload`. -/
def DisconnectMessage.payload (_m : DisconnectMessage) : JVal :=
  JVal.obj [("disconnect", JVal.int 1)]

/-- `RampMessage.to_json` for DCM. -/
def DisconnectMessage.to_json (m : DisconnectMessage) : String :=
  json_dumps m.payload

/-- The Python call protocol for `DisconnectMessage(...)`. -/
def DisconnectMessage.tryConstruct (now : Nat) (lc_id : Option String) :
    Except ConstructionError DisconnectMessage :=
  match lc_id with
  | some l => .ok (DisconnectMessage.construct now l)
  | none => .error .InvalidMessage

/-- `UpdateMessage` (um.py): carries a list of update instruction records. -/
structure UpdateMessage where
  lc_id : String
  timestamp : Nat
  updates : List JVal

/-- `UpdateMessage.__init__`. -/
def UpdateMessage.construct (now : Nat) (lc_id : String)
    (updates : List JVal) : UpdateMessage :=
  ⟨lc_id, now, updates⟩

/-- `UpdateMessage.msg_type`. -/
def UpdateMessage.msg_type (_m : UpdateMessage) : String := "UM"

/-- `UpdateMessage.topic`. -/
def UpdateMessage.topic (m : UpdateMessage) : String :=
  "/lc/" ++ m.lc_id ++ "/update/"

/-- `UpdateMessage.payload`: `return self.updates` — the stored list itself,
a JSON array rather than an object. -/
def UpdateMessage.payload (m : UpdateMessage) : JVal :=
  JVal.arr m.updates

/-- `RampMessage.to_json` for UM. -/
def UpdateMessage.to_json (m : UpdateMessage) : String :=
  json_dumps m.payload

/-- The Python call protocol for `UpdateMessage(...)`. -/
def UpdateMessage.tryConstruct (now : Nat) (lc_id : Option String)
    (updates : Option (List JVal)) : Except ConstructionError UpdateMessage :=
  match lc_id, updates with
  | some l, some u => .ok (UpdateMessage.construct now l u)
  | _, _ => .error .InvalidMessage

/-! ## `ramp_results/acknowledgment.py` -/

/-- `Acknowledgment`: a result code plus correlation metadata. -/
structure Acknowledgment where
  result : ResultCode
  msg_type : String
  original_ts : Int
  version : String
  ack_ts : Nat

/-- `Acknowledgment.__init__` with the `version` argument given explicitly;
`ack_ts` is captured at construction (passed here as `now`). -/
def Acknowledgment.construct (now : Nat) (result : ResultCode)
    (msg_type : String) (original_ts : Int) (version : String) :
    Acknowledgment :=
  ⟨result, msg_type, original_ts, version, now⟩

/-- `Acknowledgment.__init__` with the `version` argument left to its
default, `VERSION`. -/
def Acknowledgment.constructDefault (now : Nat) (result : ResultCode)
    (msg_type : String) (original_ts : Int) : Acknowledgment :=
  Acknowledgment.construct now result msg_type original_ts VERSION

/-- `Acknowledgment.payload`: the five keys in source order; only
`result.code` of the `ResultCode` is serialized. -/
def Acknowledgment.payload (a : Acknowledgment) : JVal :=
  JVal.obj [
    ("result", JVal.str a.result.code),
    ("version", JVal.str a.version),
    ("msg_type", JVal.str a.msg_type),
    ("original_ts", JVal.int a.original_ts),
    ("ack_ts", JVal.int (Int.ofNat a.ack_ts))]

/-- A JSON value that is an object (key/value mapping). -/
def JVal.isObj : JVal → Bool
  | .obj _ => true
  | _ => false

/-- A JSON value that is an array. -/
def JVal.isArr : JVal → Bool
  | .arr _ => true
  | _ => false

/-! ## Theorems -/

/-- Claim C6: every catalog entry is well-formed — its code string matches
`^[1-5]\.\d\x7b2\x7d\.\d\x7b2\x7d$` and its leading digit equals its
category's enum value under 1=SUCCESS, 2=CLIENT_ERROR, 3=SERVER_ERROR,
4=ACTION_REQUIRED, 5=CUSTOM. -/
theorem c6_catalog_codes_well_formed :
    ALL_CODES.all (fun rc =>
      code_well_formed rc.code
        && (leading_ordinal rc.code == some rc.category.value)) = true := by
  decide

/-- Claim C7: no two catalog entries share a code string — the `code` fields
of the catalog constants are pairwise distinct. -/
theorem c7_catalog_codes_distinct :
    (ALL_CODES.map (fun rc => rc.code)).Nodup := by
  decide

/-- Claim C8: the heartbeat topic is built as `/lc/` ++ lc_id ++
`/heartbeat/` and the handshake topic as `/mc/` ++ lc_id ++
`/new_connection/request`, for every lc_id; concretely for `LC7`. -/
theorem c8_topics (now : Nat) (lc_id name ip : String) (heartrate : Int)
    (train_id : Option Int) (sensors : Option (List JVal)) :
    (HeartbeatMessage.construct now lc_id heartrate).topic
        = "/lc/" ++ lc_id ++ "/heartbeat/"
    ∧ (FirstHandshakeMessage.construct now lc_id name ip train_id sensors).topic
        = "/mc/" ++ lc_id ++ "/new_connection/request"
    ∧ (HeartbeatMessage.construct 0 "LC7" 5).topic = "/lc/LC7/heartbeat/"
    ∧ (FirstHandshakeMessage.construct 0 "LC7" "n" "ip" none none).topic
        = "/mc/LC7/new_connection/request" :=
  ⟨rfl, rfl, rfl, rfl⟩

/-- Claim C4: an acknowledgment's payload is the mapping with keys
`result`, `version`, `msg_type`, `original_ts`, `ack_ts` in exactly that
order; `result` is the literal code string (category and description never
appear), `original_ts` is passed through unchanged, and `version` defaults
to the catalog's `VERSION` (`"1.0.0"`) unless overridden. -/
theorem c4_ack_payload (now : Nat) (rc : ResultCode) (mt : String)
    (original_ts : Int) (v : String) :
    (Acknowledgment.constructDefault now rc mt original_ts).payload
      = JVal.obj [("result", JVal.str rc.code), ("version", JVal.str "1.0.0"),
          ("msg_type", JVal.str mt), ("original_ts", JVal.int original_ts),
          ("ack_ts", JVal.int (Int.ofNat now))]
    ∧ (Acknowledgment.construct now rc mt original_ts v).payload
      = JVal.obj [("result", JVal.str rc.code), ("version", JVal.str v),
          ("msg_type", JVal.str mt), ("original_ts", JVal.int original_ts),
          ("ack_ts", JVal.int (Int.ofNat now))] :=
  ⟨rfl, rfl⟩

/-- Claim C10: an update message's payload is the stored `updates` sequence
itself — a JSON array, not a key/value mapping — and `to_json` serializes it
as a JSON array. -/
theorem c10_um_payload_is_updates_array (now : Nat) (lc_id : String)
    (updates : List JVal) :
    (UpdateMessage.construct now lc_id updates).payload
        = JVal.arr (UpdateMessage.construct now lc_id updates).updates
    ∧ ((UpdateMessage.construct now lc_id updates).payload).isArr = true
    ∧ ((UpdateMessage.construct now lc_id updates).payload).isObj = false
    ∧ (UpdateMessage.construct now lc_id updates).to_json
        = "[" ++ json_dumps_list updates ++ "]" :=
  ⟨rfl, rfl, rfl, rfl⟩

/-- Claim C1: `is_compatible r` is true iff `r` splits on the dot into
exactly 3 components whose component 0 equals the local major `"1"` and
whose component 1 equals the local minor `"0"`, the patch component never
being compared; with the spec's concrete examples, and `false` (rather than
an exception) on every other input. -/
theorem c1_is_compatible_iff :
    (∀ r : String, is_compatible r = true ↔
        ((py_split_dot r).length = 3
          ∧ (py_split_dot r)[0]? = some "1"
          ∧ (py_split_dot r)[1]? = some "0"))
    ∧ is_compatible "1.0.5" = true
    ∧ is_compatible "1.1.0" = false
    ∧ is_compatible "2.0.0" = false
    ∧ is_compatible "1.0" = false := by
  refine ⟨?_, by decide, by decide, by decide, by decide⟩
  intro r
  have hv : py_split_dot VERSION = ["1", "0", "0"] := rfl
  unfold is_compatible
  rw [hv]
  cases h : py_split_dot r with
  | nil => simp
  | cons a t =>
    cases t with
    | nil => simp
    | cons b t2 =>
      cases t2 with
      | nil => simp
      | cons c t3 =>
        cases t3 with
        | nil =>
          by_cases ha : a = "1" <;> by_cases hb : b = "0" <;>
            simp [ha, hb, eq_comm]
        | cons d t4 => simp

/-- Claim C2: constructing any concrete variant with a required field
missing fails at construction time with the `InvalidMessage` kind, and
construction exposes no other failure mode — each variant's construction
succeeds exactly when all its required fields are present, and every
failure is the `InvalidMessage` error. -/
theorem c2_construction_requires_fields :
    (∀ (now : Nat) (l n i : Option String) (t : Option Int)
        (s : Option (List JVal)) (e : ConstructionError),
      ((FirstHandshakeMessage.tryConstruct now l n i t s).isOk
          = (l.isSome && n.isSome && i.isSome))
      ∧ (FirstHandshakeMessage.tryConstruct now l n i t s = Except.error e
          ↔ ((l.isSome && n.isSome && i.isSome) = false
              ∧ e = ConstructionError.InvalidMessage)))
    ∧ (∀ (now : Nat) (l : Option String) (hr : Option Int)
        (e : ConstructionError),
      ((HeartbeatMessage.tryConstruct now l hr).isOk = (l.isSome && hr.isSome))
      ∧ (HeartbeatMessage.tryConstruct now l hr = Except.error e
          ↔ ((l.isSome && hr.isSome) = false
              ∧ e = ConstructionError.InvalidMessage)))
    ∧ (∀ (now : Nat) (l : Option String) (e : ConstructionError),
      ((DisconnectMessage.tryConstruct now l).isOk = l.isSome)
      ∧ (DisconnectMessage.tryConstruct now l = Except.error e
          ↔ (l.isSome = false ∧ e = ConstructionError.InvalidMessage)))
    ∧ (∀ (now : Nat) (l : Option String) (u : Option (List JVal))
        (e : ConstructionError),
      ((UpdateMessage.tryConstruct now l u).isOk = (l.isSome && u.isSome))
      ∧ (UpdateMessage.tryConstruct now l u = Except.error e
          ↔ ((l.isSome && u.isSome) = false
              ∧ e = ConstructionError.InvalidMessage))) := by
  refine ⟨?_, ?_, ?_, ?_⟩
  · intro now l n i t s e
    cases e
    cases l <;> cases n <;> cases i <;>
      simp [FirstHandshakeMessage.tryConstruct, Except.isOk, Except.toBool]
  · intro now l hr e
    cases e
    cases l <;> cases hr <;>
      simp [HeartbeatMessage.tryConstruct, Except.isOk, Except.toBool]
  · intro now l e
    cases e
    cases l <;>
      simp [DisconnectMessage.tryConstruct, Except.isOk, Except.toBool]
  · intro now l u e
    cases e
    cases l <;> cases u <;>
      simp [UpdateMessage.tryConstruct, Except.isOk, Except.toBool]

/-- Claim C3: every defined code string looks up to its unique catalog
entry, and a code string not present in the catalog is surfaced as an
`UnknownCode` lookup error, never silently defaulted. -/
theorem c3_lookup_code_total :
    (∀ rc ∈ ALL_CODES, lookup_code rc.code = Except.ok rc)
    ∧ (∀ c : String, (∀ rc ∈ ALL_CODES, rc.code ≠ c) →
        lookup_code c = Except.error (CodeLookupError.UnknownCode c)) := by
  constructor
  · intro rc hrc
    fin_cases hrc <;> rfl
  · intro c h
    unfold lookup_code
    cases hf : ALL_CODES.find? (fun rc => rc.code == c) with
    | none => rfl
    | some rc =>
      exfalso
      have hp := List.find?_some hf
      have hmem := List.mem_of_find?_eq_some hf
      exact h rc hmem (by simpa using hp)

/-- Claim C3 witness: the first catalog code looks up to its entry; an
absent code string yields the `UnknownCode` error. -/
theorem c3_lookup_code_total_witness :
    lookup_code "1.00.00" = Except.ok GENERIC_SUCCESS
    ∧ lookup_code "9.99.99"
        = Except.error (CodeLookupError.UnknownCode "9.99.99") :=
  ⟨c3_lookup_code_total.1 GENERIC_SUCCESS (by decide),
   c3_lookup_code_total.2 "9.99.99" (by decide)⟩

/-- Claim C5: the handshake payload's keys are `id`, `name`, `ip` in that
order (with `id` carrying `lc_id`), followed by `train_id` exactly when one
was provided and by `sensors` exactly when the sensor list is non-empty
after normalization; present keys carry the given values. -/
theorem c5_fhm_payload_shape (now : Nat) (l n i : String) (t : Option Int)
    (s : Option (List JVal)) :
    ((FirstHandshakeMessage.construct now l n i t s).payload).objKeys
        = ["id", "name", "ip"]
          ++ (if t.isSome then ["train_id"] else [])
          ++ (if (s.getD []).isEmpty then [] else ["sensors"])
    ∧ ((FirstHandshakeMessage.construct now l n i t s).payload).objLookup "id"
        = some (JVal.str l)
    ∧ ((FirstHandshakeMessage.construct now l n i t s).payload).objLookup "name"
        = some (JVal.str n)
    ∧ ((FirstHandshakeMessage.construct now l n i t s).payload).objLookup "ip"
        = some (JVal.str i)
    ∧ ((FirstHandshakeMessage.construct now l n i t s).payload).objLookup "train_id"
        = t.map JVal.int
    ∧ ((FirstHandshakeMessage.construct now l n i t s).payload).objLookup "sensors"
        = (if (s.getD []).isEmpty then none
           else some (JVal.arr (s.getD []))) := by
  rcases t with _ | tv <;> rcases s with _ | ⟨_ | ⟨x, xs⟩⟩ <;>
    simp [FirstHandshakeMessage.construct, FirstHandshakeMessage.payload,
      JVal.objKeys, JVal.objLookup, List.find?]

/-- Claim C9: the two optional handshake fields are treated asymmetrically —
`train_id` is emitted whenever it is not `None`, so a `train_id` of 0 appears
in the payload, while `sensors` is normalized to the empty list at
construction, making a handshake built with `sensors=None` equal to one
built with `sensors=[]`; both omit the `sensors` key. -/
theorem c9_fhm_optional_asymmetry :
    (∀ (now : Nat) (l n i : String) (s : Option (List JVal)),
      ((FirstHandshakeMessage.construct now l n i (some 0) s).payload).objLookup
        "train_id" = some (JVal.int 0))
    ∧ (∀ (now : Nat) (l n i : String) (t : Option Int) (s : Option (List JVal)),
      (((FirstHandshakeMessage.construct now l n i t s).payload).objLookup
        "train_id").isSome = t.isSome)
    ∧ (∀ (now : Nat) (l n i : String) (t : Option Int),
      FirstHandshakeMessage.construct now l n i t none
        = FirstHandshakeMessage.construct now l n i t (some []))
    ∧ (∀ (now : Nat) (l n i : String) (t : Option Int),
      ((FirstHandshakeMessage.construct now l n i t none).payload).objLookup
        "sensors" = none) := by
  refine ⟨?_, ?_, ?_, ?_⟩
  · intro now l n i s
    rcases s with _ | ⟨_ | ⟨x, xs⟩⟩ <;>
      simp [FirstHandshakeMessage.construct, FirstHandshakeMessage.payload,
        JVal.objLookup, List.find?]
  · intro now l n i t s
    rcases t with _ | tv <;> rcases s with _ | ⟨_ | ⟨x, xs⟩⟩ <;>
      simp [FirstHandshakeMessage.construct, FirstHandshakeMessage.payload,
        JVal.objLookup, List.find?]
  · intro now l n i t
    rfl
  · intro now l n i t
    rcases t with _ | tv <;>
      simp [FirstHandshakeMessage.construct, FirstHandshakeMessage.payload,
        JVal.objLookup, List.find?]
